import Mathlib

/-!
Shallow embedding of the authentication and authorization substrate of the
Netflix Hub backend (app/auth.py, app/deps.py, app/routers/auth.py,
app/models.py, app/config.py), together with theorems settling the frozen
claims about it.

Modelling conventions:
* The relational store is a record of lists of rows; a request handler is a
  function from the store (and the current time, in seconds) to an outcome
  and the resulting store.
* Python exceptions are `Except`; an HTTP error response raised through
  `HTTPException` and an uncaught Python exception are distinguished by the
  `Failure` type.
* Wall-clock time is a `Nat` of seconds since the epoch.
-/

namespace NetflixHub

/-! ### Decimal strings: model of Python str() on ints and int() on strings

`pyStr` models Python `str(i)` on an int (the decimal digit string, with a
leading minus sign when negative); `pyInt?` models Python `int(s)` on the string shapes that
occur in this code base (optional leading minus followed by decimal
digits), returning `none` where Python raises `ValueError`. -/

def decValue (cs : List Char) : Nat :=
  cs.foldl (fun n c => n * 10 + (c.toNat - Char.toNat (Char.ofNat 48))) 0

def decDigitsCore : Nat → Nat → List Char → List Char
  | 0, _, acc => acc
  | fuel + 1, n, acc =>
    let d := Nat.digitChar (n % 10)
    if n / 10 = 0 then d :: acc
    else decDigitsCore fuel (n / 10) (d :: acc)

def decDigits (n : Nat) : List Char :=
  decDigitsCore (n + 1) n []

def pyDigits? (cs : List Char) : Option Nat :=
  if cs.isEmpty then none
  else if cs.all (fun c => c.isDigit) then some (decValue cs)
  else none

def pyInt? (s : String) : Option Int :=
  match s.data with
  | [] => none
  | c :: cs =>
    if c = Char.ofNat 45 then (pyDigits? cs).map (fun n => -Int.ofNat n)
    else (pyDigits? (c :: cs)).map (fun n => Int.ofNat n)

/-- Model of Python `str(i)` on an int: a minus sign (codepoint 45) for
negative values followed by the decimal digits of the absolute value. -/
def pyStr (i : Int) : String :=
  if i < 0 then String.mk (Char.ofNat 45 :: decDigits i.natAbs)
  else String.mk (decDigits i.natAbs)

/-! ### Password hashing: model of passlib CryptContext(schemes=["bcrypt"])

Salting is abstracted away: in the model a digest is the scheme header
followed by the plaintext it was derived from, so that exactly the digests
produced by hashing `p` verify against `p`.  `cryptContext_verify` mirrors
passlib's behaviour of raising `UnknownHashError` when the digest cannot be
identified as belonging to a configured scheme. -/

def bcryptDigest (plaintext : String) : String :=
  "$2b$12$" ++ plaintext

def bcryptIdentify (digest : String) : Bool :=
  "$2b$12$".data.isPrefixOf digest.data

def cryptContext_verify (plaintext digest : String) : Except String Bool :=
  if bcryptIdentify digest then Except.ok (digest == bcryptDigest plaintext)
  else Except.error ("UnknownHashError: hash could not be identified")

def cryptContext_hash (password : String) : String :=
  bcryptDigest password

/-! ### JWT: model of python-jose jwt.encode / jwt.decode

A token is modelled as its payload plus the key and algorithm it was signed
with; `jwt_decode` succeeds exactly when the key and algorithm match and
the `exp` claim has not lapsed.  python-jose's `_validate_exp` (with its
default zero leeway) rejects a token only when `exp < now`. -/

structure JwtPayload where
  sub : Option String
  roles : List String
  exp : Nat
deriving DecidableEq, Repr

structure Jwt where
  payload : JwtPayload
  key : String
  alg : String
deriving DecidableEq, Repr

def jwt_encode (payload : JwtPayload) (key : String) (alg : String) : Jwt :=
  ⟨payload, key, alg⟩

def jwt_decode (token : Jwt) (key : String) (algs : List String) (now : Nat) :
    Except String JwtPayload :=
  if token.key != key || !(algs.contains token.alg) then
    Except.error ("Signature verification failed.")
  else if token.payload.exp < now then
    Except.error ("Signature has expired.")
  else Except.ok token.payload

/-! ### app/config.py -/

def SECRET_KEY : String := "super-secret-change-me-in-production"

def ALGORITHM : String := "HS256"

def ACCESS_TOKEN_EXPIRE_MINUTES : Nat := 60 * 24

/-! ### app/models.py (the tables the auth substrate touches) -/

structure ADPUser where
  user_id : Int
  email : String
  username : String
  password_hash : String
  is_active : Bool
  created_at : Nat
  last_login_at : Option Nat
deriving DecidableEq, Repr

structure ADPRole where
  role_code : String
  role_name : String
deriving DecidableEq, Repr

structure ADPUserRole where
  user_id : Int
  role_code : String
deriving DecidableEq, Repr

structure ADPLoginAudit where
  user_id : Int
  login_time : Nat
  success : Bool
  client_ip : Option String
  user_agent : Option String
deriving DecidableEq, Repr

structure ADPPasswordReset where
  token_id : String
  user_id : Int
  created_at : Nat
  expires_at : Nat
  used_at : Option Nat
deriving DecidableEq, Repr

structure ADPAccount where
  account_id : Int
  first_name : String
  last_name : String
  address_line1 : String
  city : String
  state_province : String
  postal_code : String
  opened_date : Nat
  monthly_service_fee : String
  adp_country_country_code : String
  adp_user_user_id : Int
deriving DecidableEq, Repr

structure ADPCountry where
  country_code : String
  country_name : String
deriving DecidableEq, Repr

structure DB where
  users : List ADPUser
  roles : List ADPRole
  user_roles : List ADPUserRole
  audits : List ADPLoginAudit
  resets : List ADPPasswordReset
  accounts : List ADPAccount
  countries : List ADPCountry
deriving DecidableEq, Repr

/-- Outcome of a request handler: an HTTP error response raised via
`HTTPException` (status code and detail), or a Python exception that no
handler in the function catches. -/
inductive Failure where
  | http (statusCode : Nat) (detail : String)
  | unhandled (exc : String)
deriving DecidableEq, Repr

/-! ### app/auth.py -/

structure TokenData where
  user_id : Int
deriving DecidableEq, Repr

/-- Argument of `create_access_token`: the `data` dict `\x7b"sub": ..., "roles": ...\x7d`
built by the callers. -/
structure TokenInput where
  sub : Option String
  roles : List String
deriving DecidableEq, Repr

/-- app/auth.py `verify_password`.  Python's `if not hashed_password` guard
fires exactly on the empty digest; otherwise the call is delegated to
`pwd_context.verify`, whose exceptions propagate to the caller. -/
def verify_password (plain_password hashed_password : String) : Except String Bool :=
  if hashed_password == "" then Except.ok false
  else cryptContext_verify plain_password hashed_password

/-- app/auth.py `get_password_hash`. -/
def get_password_hash (password : String) : String :=
  cryptContext_hash password

/-- app/auth.py `create_access_token` (the identical copy in app/deps.py has
the same behaviour): expiry is `now` plus the given delta, defaulting to
`ACCESS_TOKEN_EXPIRE_MINUTES`; `expires_delta` is in seconds. -/
def create_access_token (data : TokenInput) (expires_delta : Option Nat) (now : Nat) : Jwt :=
  let expire : Nat := now + (match expires_delta with
    | some d => d
    | none => ACCESS_TOKEN_EXPIRE_MINUTES * 60)
  jwt_encode ⟨data.sub, data.roles, expire⟩ SECRET_KEY ALGORITHM

/-- app/auth.py `decode_token`.  A `JWTError` is re-raised as `ValueError`;
a missing subject raises `ValueError`; `int(sub)` on a non-numeric subject
raises `ValueError` from inside the `try` block (uncaught there, since the
clause catches only `JWTError`) — in all cases the caller sees `ValueError`,
modelled as `Except.error`. -/
def decode_token (token : Jwt) (now : Nat) : Except String TokenData :=
  match jwt_decode token SECRET_KEY [ALGORITHM] now with
  | Except.error e => Except.error ("Invalid token: " ++ e)
  | Except.ok payload =>
    match payload.sub with
    | none => Except.error ("Invalid token: missing subject")
    | some s =>
      match pyInt? s with
      | some n => Except.ok ⟨n⟩
      | none => Except.error ("invalid literal for int() with base 10: " ++ s)

/-- app/auth.py `get_user_by_identifier`: first user whose email or
username equals the identifier. -/
def get_user_by_identifier (db : DB) (identifier : String) : Option ADPUser :=
  db.users.find? (fun u => u.email == identifier || u.username == identifier)

/-- app/auth.py `authenticate_user`: `some user` on success, `none` when the
identifier resolves to nobody or the password does not verify; an exception
escaping `verify_password` propagates. -/
def authenticate_user (db : DB) (identifier password : String) :
    Except String (Option ADPUser) :=
  match get_user_by_identifier db identifier with
  | none => Except.ok none
  | some user =>
    match verify_password password user.password_hash with
    | Except.error e => Except.error e
    | Except.ok false => Except.ok none
    | Except.ok true => Except.ok (some user)

/-- app/auth.py `get_current_user`: any `ValueError` from `decode_token`
and a missing user both become the 401 `credentials_exception`; `is_active`
is not consulted. -/
def auth_get_current_user (token : Jwt) (db : DB) (now : Nat) :
    Except Failure ADPUser :=
  match decode_token token now with
  | Except.error _ => Except.error (Failure.http 401 ("Could not validate credentials"))
  | Except.ok token_data =>
    match db.users.find? (fun u => u.user_id == token_data.user_id) with
    | none => Except.error (Failure.http 401 ("Could not validate credentials"))
    | some user => Except.ok user

/-! ### app/deps.py (the dependencies actually wired into the routers) -/

/-- app/deps.py `decode_token`: translates any `JWTError` into a 401
`HTTPException`; performs no subject handling itself. -/
def deps_decode_token (token : Jwt) (now : Nat) : Except Failure JwtPayload :=
  match jwt_decode token SECRET_KEY [ALGORITHM] now with
  | Except.error _ => Except.error (Failure.http 401 ("Invalid or expired token"))
  | Except.ok payload => Except.ok payload

/-- app/deps.py `get_current_user`: a missing `sub` claim is a 401, but the
subsequent `int(user_id)` sits outside any `try`, so a non-numeric subject
raises an uncaught `ValueError`; a missing user is a 401 and an inactive
user a 403. -/
def deps_get_current_user (token : Jwt) (db : DB) (now : Nat) :
    Except Failure ADPUser :=
  match deps_decode_token token now with
  | Except.error e => Except.error e
  | Except.ok payload =>
    match payload.sub with
    | none => Except.error (Failure.http 401 ("Invalid token payload"))
    | some s =>
      match pyInt? s with
      | none => Except.error (Failure.unhandled ("ValueError: invalid literal for int() with base 10: " ++ s))
      | some uid =>
        match db.users.find? (fun u => u.user_id == uid) with
        | none => Except.error (Failure.http 401 ("User not found"))
        | some user =>
          if user.is_active then Except.ok user
          else Except.error (Failure.http 403 ("User account is deactivated"))

/-- app/deps.py `get_user_roles`: role codes of the grants stored for the
user. -/
def get_user_roles (user : ADPUser) (db : DB) : List String :=
  (db.user_roles.filter (fun r => r.user_id == user.user_id)).map (fun r => r.role_code)

/-- app/deps.py `require_admin`. -/
def require_admin (token : Jwt) (db : DB) (now : Nat) : Except Failure ADPUser :=
  match deps_get_current_user token db now with
  | Except.error e => Except.error e
  | Except.ok user =>
    if (get_user_roles user db).contains "ADMIN" then Except.ok user
    else Except.error (Failure.http 403 ("Admin access required"))

/-- app/deps.py `require_employee`. -/
def require_employee (token : Jwt) (db : DB) (now : Nat) : Except Failure ADPUser :=
  match deps_get_current_user token db now with
  | Except.error e => Except.error e
  | Except.ok user =>
    if (get_user_roles user db).contains "ADMIN" || (get_user_roles user db).contains "EMPLOYEE" then
      Except.ok user
    else Except.error (Failure.http 403 ("Employee access required"))

/-! ### app/routers/auth.py -/

/-- app/schemas.py `UserCreate`: the signup payload. -/
structure UserCreate where
  username : String
  email : String
  password : String
  first_name : String
  last_name : String
  address_line1 : String
  city : String
  state_province : String
  postal_code : String
  country_code : String
deriving DecidableEq, Repr

/-- app/schemas.py `UserRead`: the public identity view returned by signup. -/
structure UserRead where
  id : Int
  username : String
  email : String
  is_active : Bool
deriving DecidableEq, Repr

/-- Store-level exception classes that the insert/commit section of signup
can surface: `OperationalError` (lock timeouts, database busy) and
`IntegrityError` (unique-constraint violation at insert time). -/
inductive StoreExc where
  | operationalError
  | integrityError
deriving DecidableEq, Repr

/-- app/routers/auth.py `signup`.  After the pre-checks, the `try` block
generates ids, inserts the user row, the `"USER"` role grant (only when a
`"USER"` role exists in the role catalog), the linked account row, and
commits; `commit` says which store exception (if any) that section raises.
Its `except OperationalError` clause rolls back and returns 409; any other
store exception — in particular `IntegrityError` — is uncaught. -/
def signup (db : DB) (user_in : UserCreate) (now today : Nat) (commit : Option StoreExc) :
    (Except Failure UserRead) × DB :=
  if (get_user_by_identifier db user_in.email).isSome then
    (Except.error (Failure.http 400 ("Email already registered")), db)
  else if (get_user_by_identifier db user_in.username).isSome then
    (Except.error (Failure.http 400 ("Username already taken")), db)
  else if (db.countries.find? (fun c => c.country_code == user_in.country_code)).isNone then
    (Except.error (Failure.http 400 ("Invalid country code: " ++ user_in.country_code)), db)
  else
    match commit with
    | some StoreExc.operationalError =>
      (Except.error (Failure.http 409 ("Database busy. Please try again.")), db)
    | some StoreExc.integrityError =>
      (Except.error (Failure.unhandled ("IntegrityError")), db)
    | none =>
      let next_user_id : Int := ((db.users.map (fun u => u.user_id)).max?.getD 0) + 1
      let user : ADPUser :=
        ⟨next_user_id, user_in.email, user_in.username,
          get_password_hash user_in.password, true, now, none⟩
      let grants : List ADPUserRole :=
        if (db.roles.find? (fun r => r.role_code == "USER")).isSome then
          [⟨next_user_id, "USER"⟩]
        else []
      let next_account_id : Int := ((db.accounts.map (fun a => a.account_id)).max?.getD 0) + 1
      let account : ADPAccount :=
        ⟨next_account_id, user_in.first_name, user_in.last_name, user_in.address_line1,
          user_in.city, user_in.state_province, user_in.postal_code, today, "9.99",
          user_in.country_code, next_user_id⟩
      (Except.ok ⟨user.user_id, user.username, user.email, user.is_active⟩,
        { db with
            users := db.users ++ [user]
            user_roles := db.user_roles ++ grants
            accounts := db.accounts ++ [account] })

/-- Modelled from the spec: `roles_for(identity_id) -> set of role codes`
(§4.4), "returns the current grants; empty set (not an error) if none".
app/routers/auth.py imports `get_user_roles` from app.auth and calls it as
`get_user_roles(db, user.user_id)`, but app/auth.py in the sources defines
no such function. -/
def auth_get_user_roles (db : DB) (user_id : Int) : List String :=
  (db.user_roles.filter (fun r => r.user_id == user_id)).map (fun r => r.role_code)

/-- The body of the login route's 200 response. -/
structure LoginResponse where
  access_token : Jwt
  token_type : String
  user_id : Int
  roles : List String
deriving DecidableEq, Repr

/-- app/routers/auth.py `login`.  On a failed authentication an audit row is
appended only when the identifier resolves to some user, and the same 401
with the same detail is raised whether the user was missing or the password
wrong; on success last-login is set, a success audit row is appended, and a
token carrying `str(user_id)` and the stored role codes is issued. -/
def login (db : DB) (identifier password : String) (now : Nat)
    (client_ip user_agent : Option String) : (Except Failure LoginResponse) × DB :=
  match authenticate_user db identifier password with
  | Except.error e => (Except.error (Failure.unhandled e), db)
  | Except.ok none =>
    let db' :=
      match get_user_by_identifier db identifier with
      | some existing_user =>
        { db with audits := db.audits ++ [⟨existing_user.user_id, now, false, client_ip, user_agent⟩] }
      | none => db
    (Except.error (Failure.http 401 ("Incorrect email/username or password")), db')
  | Except.ok (some user) =>
    let user' : ADPUser := { user with last_login_at := some now }
    let db' : DB :=
      { db with
          users := db.users.map (fun u => if u.user_id == user.user_id then user' else u)
          audits := db.audits ++ [⟨user.user_id, now, true, client_ip, user_agent⟩] }
    let roles := auth_get_user_roles db user.user_id
    let access_token := create_access_token ⟨some (pyStr user.user_id), roles⟩ none now
    (Except.ok ⟨access_token, "bearer", user.user_id, roles⟩, db')

/-- The two writes of a successful password-reset confirmation, committed
together: the user's new password hash and the token's used-at mark. -/
def applyReset (db : DB) (reset : ADPPasswordReset) (new_password : String) (now : Nat) : DB :=
  { db with
      users := db.users.map (fun u =>
        if u.user_id == reset.user_id then { u with password_hash := get_password_hash new_password } else u)
      resets := db.resets.map (fun r =>
        if r.token_id == reset.token_id then { r with used_at := some now } else r) }

/-- app/routers/auth.py `confirm_password_reset`.  Fails with 400 when the
token is unknown, already used, or past expiry (`expires_at < now`); when
the token is redeemable but references no user, the attribute access on
`None` raises uncaught; otherwise the new hash and the used-at mark are
committed together. -/
def confirm_password_reset (db : DB) (token new_password : String) (now : Nat) :
    (Except Failure String) × DB :=
  match db.resets.find? (fun r => r.token_id == token) with
  | none => (Except.error (Failure.http 400 ("Invalid or expired reset token")), db)
  | some reset =>
    if reset.used_at.isSome then
      (Except.error (Failure.http 400 ("This reset token has already been used")), db)
    else if reset.expires_at < now then
      (Except.error (Failure.http 400 ("This reset token has expired")), db)
    else
      match db.users.find? (fun u => u.user_id == reset.user_id) with
      | none => (Except.error (Failure.unhandled ("AttributeError: NoneType object has no attribute")), db)
      | some _ =>
        (Except.ok ("Password has been reset successfully."), applyReset db reset new_password now)

/-! ### Lemmas: the decimal printer and parser are mutually inverse -/

theorem digitChar_isDigit (d : Nat) (h : d < 10) : (Nat.digitChar d).isDigit = true := by
  interval_cases d <;> decide

theorem digitChar_toNat (d : Nat) (h : d < 10) :
    Char.toNat (Nat.digitChar d) = 48 + d := by
  interval_cases d <;> decide

theorem decDigitsCore_spec (fuel : Nat) :
    ∀ (n : Nat) (acc : List Char), n < 10 ^ (fuel + 1) →
      ∃ ds : List Char,
        decDigitsCore (fuel + 1) n acc = ds ++ acc ∧ ds ≠ [] ∧
        (∀ c ∈ ds, c.isDigit = true) ∧
        ∀ v : Nat,
          ds.foldl (fun m c => m * 10 + (c.toNat - Char.toNat (Char.ofNat 48))) v
            = v * 10 ^ ds.length + n := by
  induction fuel with
  | zero =>
    intro n acc h
    have hlt : n < 10 := by simpa using h
    have h10 : n / 10 = 0 := Nat.div_eq_of_lt hlt
    refine ⟨[Nat.digitChar (n % 10)], by simp [decDigitsCore, h10], by simp, ?_, ?_⟩
    · intro c hc
      have hc' : c = Nat.digitChar (n % 10) := by simpa using hc
      exact hc' ▸ digitChar_isDigit _ (Nat.mod_lt _ (by decide))
    · intro v
      have h1 : Char.toNat (Nat.digitChar (n % 10)) = 48 + n % 10 :=
        digitChar_toNat _ (Nat.mod_lt _ (by decide))
      have h2 : Char.toNat (Char.ofNat 48) = 48 := by decide
      simp only [List.foldl, h1, h2, List.length_cons, List.length_nil, pow_one]
      omega
  | succ f ih =>
    intro n acc h
    by_cases h10 : n / 10 = 0
    · have hlt : n < 10 := by
        rcases Nat.lt_or_ge n 10 with hc | hc
        · exact hc
        · exact absurd h10 (by omega)
      refine ⟨[Nat.digitChar (n % 10)], by simp [decDigitsCore, h10], by simp, ?_, ?_⟩
      · intro c hc
        have hc' : c = Nat.digitChar (n % 10) := by simpa using hc
        exact hc' ▸ digitChar_isDigit _ (Nat.mod_lt _ (by decide))
      · intro v
        have h1 : Char.toNat (Nat.digitChar (n % 10)) = 48 + n % 10 :=
          digitChar_toNat _ (Nat.mod_lt _ (by decide))
        have h2 : Char.toNat (Char.ofNat 48) = 48 := by decide
        simp only [List.foldl, h1, h2, List.length_cons, List.length_nil, pow_one]
        omega
    · have hn : n / 10 < 10 ^ (f + 1) := by
        apply Nat.div_lt_of_lt_mul
        calc n < 10 ^ (f + 1 + 1) := h
        _ = 10 * 10 ^ (f + 1) := by ring
      obtain ⟨ds, heq, hne, hdig, hval⟩ :=
        ih (n / 10) (Nat.digitChar (n % 10) :: acc) hn
      refine ⟨ds ++ [Nat.digitChar (n % 10)], ?_, by simp, ?_, ?_⟩
      · have hstep : decDigitsCore (f + 1 + 1) n acc
            = decDigitsCore (f + 1) (n / 10) (Nat.digitChar (n % 10) :: acc) := by
          simp [decDigitsCore, h10]
        rw [hstep, heq, List.append_assoc]
        simp
      · intro c hc
        rcases List.mem_append.mp hc with hc' | hc'
        · exact hdig c hc'
        · have hc'' : c = Nat.digitChar (n % 10) := by simpa using hc'
          exact hc'' ▸ digitChar_isDigit _ (Nat.mod_lt _ (by decide))
      · intro v
        rw [List.foldl_append, hval v]
        have h1 : Char.toNat (Nat.digitChar (n % 10)) = 48 + n % 10 :=
          digitChar_toNat _ (Nat.mod_lt _ (by decide))
        have h2 : Char.toNat (Char.ofNat 48) = 48 := by decide
        simp only [List.foldl, h1, h2, List.length_append, List.length_cons,
          List.length_nil, Nat.zero_add, pow_succ]
        rw [← mul_assoc]
        generalize v * 10 ^ ds.length = u
        omega

theorem decDigits_spec (n : Nat) :
    decDigits n ≠ [] ∧ (∀ c ∈ decDigits n, c.isDigit = true) ∧
      decValue (decDigits n) = n := by
  have hlt : n < 10 ^ (n + 1) := by
    calc n < 10 ^ n := Nat.lt_pow_self (by decide) n
    _ ≤ 10 ^ (n + 1) := Nat.pow_le_pow_right (by decide) (Nat.le_succ n)
  obtain ⟨ds, heq, hne, hdig, hval⟩ := decDigitsCore_spec n n [] hlt
  have hdd : decDigits n = ds := by
    simpa [decDigits] using heq
  refine ⟨hdd ▸ hne, ?_, ?_⟩
  · intro c hc
    exact hdig c (hdd ▸ hc)
  · rw [hdd]
    simpa [decValue] using hval 0

theorem pyDigits?_decDigits (n : Nat) : pyDigits? (decDigits n) = some n := by
  obtain ⟨hne, hdig, hval⟩ := decDigits_spec n
  simp only [pyDigits?]
  rw [if_neg (by simpa [List.isEmpty_iff] using hne), if_pos (by simpa [List.all_eq_true] using hdig)]
  rw [hval]

theorem pyInt?_pyStr (i : Int) : pyInt? (pyStr i) = some i := by
  by_cases hi : i < 0
  · have hstr : pyStr i = String.mk (Char.ofNat 45 :: decDigits i.natAbs) := by
      simp [pyStr, hi]
    rw [hstr]
    simp only [pyInt?]
    rw [if_true, pyDigits?_decDigits]
    simp only [Option.map_some']
    congr 1
    rw [Int.ofNat_eq_natCast]
    omega
  · have hstr : pyStr i = String.mk (decDigits i.natAbs) := by
      simp [pyStr, hi]
    obtain ⟨hne, hdig, -⟩ := decDigits_spec i.natAbs
    obtain ⟨c, cs, hcons⟩ := List.exists_cons_of_ne_nil hne
    have hcdig : c.isDigit = true := hdig c (hcons ▸ List.mem_cons_self c cs)
    have hcne : ¬(c = Char.ofNat 45) := by
      intro hc
      rw [hc] at hcdig
      exact absurd hcdig (by decide)
    rw [hstr]
    simp only [pyInt?, hcons]
    rw [if_neg hcne, ← hcons, pyDigits?_decDigits]
    simp only [Option.map_some']
    congr 1
    rw [Int.ofNat_eq_natCast]
    omega

/-! ### Concrete fixtures used by the counterexamples and witnesses -/

def aliceHash : String := get_password_hash "secret123"

def aliceInactive : ADPUser := ⟨1, "a@x.com", "alice", aliceHash, false, 0, none⟩

def aliceActive : ADPUser := ⟨1, "a@x.com", "alice", aliceHash, true, 0, none⟩

def dbInactive : DB :=
  ⟨[aliceInactive], [⟨"USER", "User"⟩], [⟨1, "USER"⟩], [], [], [], [⟨"US", "United States"⟩]⟩

def dbActive : DB :=
  ⟨[aliceActive], [⟨"USER", "User"⟩], [⟨1, "USER"⟩], [], [], [], [⟨"US", "United States"⟩]⟩

def aliceToken : Jwt := create_access_token ⟨some "1", ["USER"]⟩ none 0

/-! ### Claim C1 -/

/-- C1, counterexample: at time 10, `aliceToken` is a structurally valid,
unexpired token for user 1 — with the user active it resolves to the
identity — yet with the user deactivated the session-resolution dependency
wired into the routers fails with HTTP 403, not with the claimed 401. -/
theorem C1_counterexample :
    deps_get_current_user aliceToken dbInactive 10
        = Except.error (Failure.http 403 ("User account is deactivated")) ∧
      deps_get_current_user aliceToken dbActive 10 = Except.ok aliceActive :=
  ⟨rfl, rfl⟩

/-- C1, amended: for every protected request carrying a structurally valid,
unexpired bearer token whose subject resolves to an existing but inactive
user, session resolution fails with HTTP 403 ("User account is
deactivated") — not 401 — and does not return the identity. -/
theorem C1_inactive_user_rejected_403 (tok : Jwt) (db : DB) (now : Nat)
    (s : String) (uid : Int) (u : ADPUser)
    (hkey : tok.key = SECRET_KEY) (halg : tok.alg = ALGORITHM)
    (hexp : ¬ tok.payload.exp < now) (hsub : tok.payload.sub = some s)
    (hint : pyInt? s = some uid)
    (hfind : db.users.find? (fun x => x.user_id == uid) = some u)
    (hinactive : u.is_active = false) :
    deps_get_current_user tok db now
      = Except.error (Failure.http 403 ("User account is deactivated")) := by
  simp [deps_get_current_user, deps_decode_token, jwt_decode, hkey, halg, hexp,
    hsub, hint, hfind, hinactive]

/-- C1, witness: the amended statement applied to the concrete inactive
user and token of the counterexample. -/
theorem C1_witness :
    deps_get_current_user aliceToken dbInactive 10
      = Except.error (Failure.http 403 ("User account is deactivated")) :=
  C1_inactive_user_rejected_403 aliceToken dbInactive 10 "1" 1 aliceInactive
    rfl rfl (by decide) rfl (by decide) rfl rfl

/-! ### Claim C2 -/

/-- C2, counterexample: alice is inactive and "secret123" matches her
stored hash, yet login succeeds and issues a bearer token — no
`AccountDisabled` (403) outcome exists in the login flow. -/
theorem C2_counterexample :
    get_user_by_identifier dbInactive "alice" = some aliceInactive ∧
      aliceInactive.is_active = false ∧
      verify_password "secret123" aliceInactive.password_hash = Except.ok true ∧
      (login dbInactive "alice" "secret123" 10 none none).1
        = Except.ok ⟨create_access_token ⟨some "1", ["USER"]⟩ none 10, "bearer", 1, ["USER"]⟩ :=
  ⟨rfl, rfl, rfl, rfl⟩

/-- C2, amended: for every login attempt where the identifier resolves to
an existing user and the submitted password matches the stored hash, login
succeeds and issues a token regardless of the user's `is_active` flag —
the login flow performs no inactive-account check (inactive accounts are
only rejected later, at session resolution). -/
theorem C2_login_ignores_is_active (db : DB) (identifier password : String)
    (now : Nat) (client_ip user_agent : Option String) (u : ADPUser)
    (hfind : get_user_by_identifier db identifier = some u)
    (hpw : verify_password password u.password_hash = Except.ok true) :
    (login db identifier password now client_ip user_agent).1
      = Except.ok ⟨create_access_token ⟨some (pyStr u.user_id), auth_get_user_roles db u.user_id⟩ none now,
          "bearer", u.user_id, auth_get_user_roles db u.user_id⟩ := by
  simp [login, authenticate_user, hfind, hpw]

/-- C2, witness: the amended statement applied to the inactive alice with
her correct password. -/
theorem C2_witness :
    (login dbInactive "alice" "secret123" 10 none none).1
      = Except.ok ⟨create_access_token ⟨some (pyStr aliceInactive.user_id),
          auth_get_user_roles dbInactive aliceInactive.user_id⟩ none 10,
          "bearer", aliceInactive.user_id, auth_get_user_roles dbInactive aliceInactive.user_id⟩ :=
  C2_login_ignores_is_active dbInactive "alice" "secret123" 10 none none aliceInactive rfl rfl

/-! ### Claim C3 -/

def bobSignup : UserCreate :=
  ⟨"bob", "b@x.com", "pw12345", "Bob", "Oh", "1 Main St", "NYC", "NY", "10001", "US"⟩

/-- C3, counterexample: the signup pre-checks pass for this payload (the
no-exception run succeeds), and an `OperationalError` at commit time is
translated to 409 — but a store-level unique-constraint violation
(`IntegrityError`) raised at insert time is not caught by signup's
`except OperationalError` clause and escapes as an unhandled error, and
the pre-check failure outcome it was claimed to coincide with is a 400,
not a 409. -/
theorem C3_counterexample :
    (signup dbActive bobSignup 5 5 none).1 = Except.ok ⟨2, "bob", "b@x.com", true⟩ ∧
      (signup dbActive bobSignup 5 5 (some StoreExc.operationalError)).1
        = Except.error (Failure.http 409 ("Database busy. Please try again.")) ∧
      (signup dbActive bobSignup 5 5 (some StoreExc.integrityError)).1
        = Except.error (Failure.unhandled ("IntegrityError")) ∧
      (signup dbActive ⟨"x", "a@x.com", "p", "F", "L", "A", "C", "S", "P", "US"⟩ 5 5 none).1
        = Except.error (Failure.http 400 ("Email already registered")) :=
  ⟨rfl, rfl, rfl, rfl⟩

/-- C3, amended: when the signup pre-checks pass, the only store exception
the insert/commit section catches is `OperationalError`, translated to
409 ("Database busy") — distinct from the 400 of a pre-check failure —
while a unique-constraint `IntegrityError` surfaced at insert time
propagates as an unhandled error. -/
theorem C3_integrity_error_uncaught (db : DB) (user_in : UserCreate) (now today : Nat)
    (hemail : (get_user_by_identifier db user_in.email).isSome = false)
    (huser : (get_user_by_identifier db user_in.username).isSome = false)
    (hcountry : (db.countries.find? (fun c => c.country_code == user_in.country_code)).isNone = false) :
    (signup db user_in now today (some StoreExc.operationalError)).1
        = Except.error (Failure.http 409 ("Database busy. Please try again.")) ∧
      (signup db user_in now today (some StoreExc.integrityError)).1
        = Except.error (Failure.unhandled ("IntegrityError")) := by
  constructor <;> simp [signup, hemail, huser, hcountry]

/-- C3, witness: the amended statement applied to the concrete payload of
the counterexample. -/
theorem C3_witness :
    (signup dbActive bobSignup 5 5 (some StoreExc.operationalError)).1
        = Except.error (Failure.http 409 ("Database busy. Please try again.")) ∧
      (signup dbActive bobSignup 5 5 (some StoreExc.integrityError)).1
        = Except.error (Failure.unhandled ("IntegrityError")) :=
  C3_integrity_error_uncaught dbActive bobSignup 5 5 rfl rfl rfl

/-! ### Claim C4 -/

/-- C4, counterexample: on a non-empty digest that is not in a recognized
hash format, `verify_password` does not return a boolean — the underlying
`pwd_context.verify` raises and the exception propagates. -/
theorem C4_counterexample :
    verify_password "secret123" "nonsense"
      = Except.error ("UnknownHashError: hash could not be identified") :=
  rfl

/-- C4, amended: `verify_password` returns false without raising for the
empty digest and for any recognized-format digest not produced from the
plaintext, and returns true for the digest produced from the plaintext;
but on a non-empty digest in no recognized format the underlying verify
raises `UnknownHashError` and `verify_password` propagates it instead of
returning false. -/
theorem C4_verify_behaviour (plain digest : String) :
    (digest = "" → verify_password plain digest = Except.ok false) ∧
    (bcryptIdentify digest = true → digest ≠ bcryptDigest plain →
      verify_password plain digest = Except.ok false) ∧
    (digest ≠ "" → bcryptIdentify digest = false →
      verify_password plain digest
        = Except.error ("UnknownHashError: hash could not be identified")) ∧
    verify_password plain (get_password_hash plain) = Except.ok true := by
  have hdata : (bcryptDigest plain).data
      = ("$2b$12$".data ++ plain.data) := by
    simp [bcryptDigest]
  refine ⟨?_, ?_, ?_, ?_⟩
  · intro h
    subst h
    rfl
  · intro hid hne
    have hne' : digest ≠ "" := by
      intro h
      subst h
      exact absurd hid (by decide)
    simp [verify_password, cryptContext_verify, hid, hne, hne']
  · intro hne hid
    simp [verify_password, cryptContext_verify, hid, hne]
  · have hid : bcryptIdentify (bcryptDigest plain) = true := by
      simp [bcryptIdentify, hdata, List.isPrefixOf]
    have hne : bcryptDigest plain ≠ "" := by
      intro h
      have hd := congrArg String.data h
      simp [hdata] at hd
    simp [verify_password, cryptContext_verify, hid, hne, get_password_hash, cryptContext_hash]

/-- C4, witness: the amended statement applied to a recognized-format
digest that was not produced from the plaintext. -/
theorem C4_witness :
    verify_password "pw" "$2b$12$other" = Except.ok false :=
  (C4_verify_behaviour "pw" "$2b$12$other").2.1 (by decide) (by decide)

/-! ### Claim C5 -/

def tokBadSub : Jwt := create_access_token ⟨some "abc", ["USER"]⟩ none 0

/-- C5: a token signed with the server key and unexpired at time 10, whose
subject claim "abc" is not parseable as an integer, makes the session
resolution wired into the routers (deps.get_current_user) raise an
uncaught `ValueError` at `int(user_id)` — an unhandled server error, not
the claimed 401 — while the parallel implementation in app/auth.py
catches the `ValueError` and fails with 401 as the claim describes. -/
theorem C5_nonint_subject_unhandled :
    deps_get_current_user tokBadSub dbActive 10
        = Except.error (Failure.unhandled ("ValueError: invalid literal for int() with base 10: abc")) ∧
      auth_get_current_user tokBadSub dbActive 10
        = Except.error (Failure.http 401 ("Could not validate credentials")) :=
  ⟨rfl, rfl⟩

/-! ### Claim C6 -/

def dbNoUserRole : DB := ⟨[], [], [], [], [], [], [⟨"US", "United States"⟩]⟩

/-- C6, counterexample: against a store whose role catalog has no "USER"
row, signup succeeds and creates the identity with no role grant at all —
the default grant is conditional on the catalog, not unconditional. -/
theorem C6_counterexample :
    (signup dbNoUserRole bobSignup 5 5 none).1 = Except.ok ⟨1, "bob", "b@x.com", true⟩ ∧
      (signup dbNoUserRole bobSignup 5 5 none).2.users
        = [⟨1, "b@x.com", "bob", get_password_hash "pw12345", true, 5, none⟩] ∧
      (signup dbNoUserRole bobSignup 5 5 none).2.user_roles = [] :=
  ⟨rfl, rfl, rfl⟩

/-- C6, amended: for every successful signup, provided the role catalog
contains a "USER" role, the created identity and its "USER" grant are
written together in the same committed transaction — the post-state holds
exactly the old rows plus the new user row and its grant. -/
theorem C6_default_role_grant (db : DB) (user_in : UserCreate) (now today : Nat) (uid : Int)
    (hemail : (get_user_by_identifier db user_in.email).isSome = false)
    (huser : (get_user_by_identifier db user_in.username).isSome = false)
    (hcountry : (db.countries.find? (fun c => c.country_code == user_in.country_code)).isNone = false)
    (hrole : (db.roles.find? (fun r => r.role_code == "USER")).isSome = true)
    (huid : uid = ((db.users.map (fun u => u.user_id)).max?.getD 0) + 1) :
    (signup db user_in now today none).1 = Except.ok ⟨uid, user_in.username, user_in.email, true⟩ ∧
      (signup db user_in now today none).2.users
        = db.users ++ [⟨uid, user_in.email, user_in.username, get_password_hash user_in.password, true, now, none⟩] ∧
      (signup db user_in now today none).2.user_roles = db.user_roles ++ [⟨uid, "USER"⟩] := by
  subst huid
  refine ⟨?_, ?_, ?_⟩ <;> simp [signup, hemail, huser, hcountry, hrole]

/-- C6, witness: the amended statement applied to a signup against the
concrete store that does carry the "USER" role. -/
theorem C6_witness :
    (signup dbActive bobSignup 5 5 none).1 = Except.ok ⟨2, "bob", "b@x.com", true⟩ ∧
      (signup dbActive bobSignup 5 5 none).2.users
        = dbActive.users ++ [⟨2, "b@x.com", "bob", get_password_hash "pw12345", true, 5, none⟩] ∧
      (signup dbActive bobSignup 5 5 none).2.user_roles = dbActive.user_roles ++ [⟨2, "USER"⟩] :=
  C6_default_role_grant dbActive bobSignup 5 5 2 rfl rfl rfl rfl (by rfl)

/-! ### Claim C7 -/

/-- C7, confirmed: a login attempt whose identifier matches no user and a
login attempt whose identifier matches an existing user but whose password
does not verify raise the very same error — status 401 with detail
"Incorrect email/username or password" — revealing nothing about which
cause applied. -/
theorem C7_login_error_indistinguishable (db : DB) (id1 pw1 id2 pw2 : String)
    (now : Nat) (client_ip user_agent : Option String) (u : ADPUser)
    (hnone : get_user_by_identifier db id1 = none)
    (hsome : get_user_by_identifier db id2 = some u)
    (hpw : verify_password pw2 u.password_hash = Except.ok false) :
    (login db id1 pw1 now client_ip user_agent).1
        = Except.error (Failure.http 401 ("Incorrect email/username or password")) ∧
      (login db id2 pw2 now client_ip user_agent).1
        = Except.error (Failure.http 401 ("Incorrect email/username or password")) := by
  constructor
  · simp [login, authenticate_user, hnone]
  · simp [login, authenticate_user, hsome, hpw]

/-- C7, witness: the two attempts evaluated against the concrete store —
unknown identifier "bob" and alice with a wrong password. -/
theorem C7_witness :
    (login dbActive "bob" "whatever" 5 none none).1
        = Except.error (Failure.http 401 ("Incorrect email/username or password")) ∧
      (login dbActive "alice" "wrong" 5 none none).1
        = Except.error (Failure.http 401 ("Incorrect email/username or password")) :=
  C7_login_error_indistinguishable dbActive "bob" "whatever" "alice" "wrong" 5 none none
    aliceActive rfl rfl rfl

/-! ### Claim C8 -/

def tokSeven : Jwt := create_access_token ⟨some (pyStr 7), ["USER"]⟩ none 1000

/-- C8, counterexample: `tokSeven` is issued at time 1000 with the default
ttl, so its expiry instant is 87400; decoding exactly at the expiry
instant still succeeds with the subject (python-jose rejects only
`exp < now`), decoding one second later fails — contradicting the claim
that decoding at the expiry instant fails. -/
theorem C8_counterexample :
    decode_token tokSeven 87400 = Except.ok ⟨7⟩ ∧
      decode_token tokSeven 87401 = Except.error ("Invalid token: Signature has expired.") :=
  ⟨rfl, rfl⟩

/-- C8, amended: decoding a token produced by
`create_access_token(\x7b"sub": str(subject_id), "roles": claims\x7d)` returns the
same subject at any instant up to and including the expiry instant
(`now + default ttl`), and fails with the invalid-token outcome strictly
after the expiry instant. -/
theorem C8_token_roundtrip (sid : Int) (claims : List String) (now t : Nat) :
    (t ≤ now + ACCESS_TOKEN_EXPIRE_MINUTES * 60 →
      decode_token (create_access_token ⟨some (pyStr sid), claims⟩ none now) t
        = Except.ok ⟨sid⟩) ∧
    (now + ACCESS_TOKEN_EXPIRE_MINUTES * 60 < t →
      decode_token (create_access_token ⟨some (pyStr sid), claims⟩ none now) t
        = Except.error ("Invalid token: Signature has expired.")) := by
  constructor
  · intro h
    have hexp : ¬ (now + ACCESS_TOKEN_EXPIRE_MINUTES * 60 < t) := by omega
    simp [decode_token, create_access_token, jwt_encode, jwt_decode, hexp, pyInt?_pyStr]
  · intro h
    simp [decode_token, create_access_token, jwt_encode, jwt_decode, h]

/-- C8, witness: the amended statement applied at subject 3, issue time 0,
and the instants 86400 (the expiry instant itself) and 86401. -/
theorem C8_witness :
    decode_token (create_access_token ⟨some (pyStr 3), []⟩ none 0) 86400 = Except.ok ⟨3⟩ ∧
      decode_token (create_access_token ⟨some (pyStr 3), []⟩ none 0) 86401
        = Except.error ("Invalid token: Signature has expired.") :=
  ⟨(C8_token_roundtrip 3 [] 0 86400).1 (by decide),
    (C8_token_roundtrip 3 [] 0 86401).2 (by decide)⟩

/-! ### Claim C9 -/

def resetRecord : ADPPasswordReset := ⟨"tok-1", 1, 0, 100, none⟩

def resetDb : DB :=
  ⟨[aliceActive], [⟨"USER", "User"⟩], [⟨1, "USER"⟩], [], [resetRecord], [], [⟨"US", "United States"⟩]⟩

/-- C9, confirmed: password-reset confirmation fails with the 400
invalid-or-expired outcome exactly when the token is unknown, already used
(`used_at` set), or past its expiry (`expires_at < now`); on success the
new password hash and the used-at mark are applied together in the single
committed state `applyReset`; on any failure the store is unchanged. -/
theorem C9_confirm_reset_contract (db : DB) (token new_password : String) (now : Nat) :
    ((db.resets.find? (fun r => r.token_id == token) = none →
        confirm_password_reset db token new_password now
          = (Except.error (Failure.http 400 ("Invalid or expired reset token")), db)) ∧
      (∀ reset, db.resets.find? (fun r => r.token_id == token) = some reset →
        reset.used_at.isSome = true →
        confirm_password_reset db token new_password now
          = (Except.error (Failure.http 400 ("This reset token has already been used")), db)) ∧
      (∀ reset, db.resets.find? (fun r => r.token_id == token) = some reset →
        reset.used_at = none → reset.expires_at < now →
        confirm_password_reset db token new_password now
          = (Except.error (Failure.http 400 ("This reset token has expired")), db))) ∧
    (∀ reset user, db.resets.find? (fun r => r.token_id == token) = some reset →
      reset.used_at = none → ¬ reset.expires_at < now →
      db.users.find? (fun u => u.user_id == reset.user_id) = some user →
      confirm_password_reset db token new_password now
        = (Except.ok ("Password has been reset successfully."), applyReset db reset new_password now)) ∧
    (∀ e, (confirm_password_reset db token new_password now).1 = Except.error e →
      (confirm_password_reset db token new_password now).2 = db) ∧
    ((confirm_password_reset db token new_password now).1.isOk = true →
      ∃ reset, db.resets.find? (fun r => r.token_id == token) = some reset ∧
        reset.used_at = none ∧ ¬ reset.expires_at < now ∧
        (confirm_password_reset db token new_password now).2
          = applyReset db reset new_password now) := by
  refine ⟨⟨?_, ?_, ?_⟩, ?_, ?_, ?_⟩
  · intro h
    simp [confirm_password_reset, h]
  · intro reset h hused
    simp [confirm_password_reset, h, hused]
  · intro reset h hused hexp
    simp [confirm_password_reset, h, hused, hexp]
  · intro reset user h hused hexp huser
    simp [confirm_password_reset, h, hused, hexp, huser]
  · intro e herr
    rcases hfind : db.resets.find? (fun r => r.token_id == token) with _ | reset
    · simp [confirm_password_reset, hfind]
    · by_cases hused : reset.used_at.isSome = true
      · simp [confirm_password_reset, hfind, hused]
      · by_cases hexp : reset.expires_at < now
        · simp [confirm_password_reset, hfind, hused, hexp]
        · rcases huser : db.users.find? (fun u => u.user_id == reset.user_id) with _ | user
          · simp [confirm_password_reset, hfind, hused, hexp, huser]
          · simp [confirm_password_reset, hfind, hused, hexp, huser] at herr
  · intro hok
    rcases hfind : db.resets.find? (fun r => r.token_id == token) with _ | reset
    · simp [confirm_password_reset, hfind, Except.isOk, Except.toBool] at hok
    · by_cases hused : reset.used_at.isSome = true
      · simp [confirm_password_reset, hfind, hused, Except.isOk, Except.toBool] at hok
      · by_cases hexp : reset.expires_at < now
        · simp [confirm_password_reset, hfind, hused, hexp, Except.isOk, Except.toBool] at hok
        · rcases huser : db.users.find? (fun u => u.user_id == reset.user_id) with _ | user
          · simp [confirm_password_reset, hfind, hused, hexp, huser, Except.isOk, Except.toBool] at hok
          · refine ⟨reset, hfind, Option.not_isSome_iff_eq_none.mp hused, hexp, ?_⟩
            simp [confirm_password_reset, hfind, hused, hexp, huser]

/-- C9, witness: the success clause of the contract applied to a concrete
redeemable token — both writes land in the committed state. -/
theorem C9_witness :
    confirm_password_reset resetDb "tok-1" "newpass123" 50
      = (Except.ok ("Password has been reset successfully."),
          applyReset resetDb resetRecord "newpass123" 50) :=
  (C9_confirm_reset_contract resetDb "tok-1" "newpass123" 50).2.1 resetRecord aliceActive
    rfl rfl (by decide) rfl

/-! ### Claim C10 -/

theorem deps_user_roles_claim_agnostic (sub : Option String) (r1 r2 : List String)
    (e : Nat) (k a : String) (db : DB) (now : Nat) :
    deps_get_current_user ⟨⟨sub, r1, e⟩, k, a⟩ db now
      = deps_get_current_user ⟨⟨sub, r2, e⟩, k, a⟩ db now := by
  simp only [deps_get_current_user, deps_decode_token, jwt_decode]
  by_cases hk : k = SECRET_KEY
  · by_cases ha : a = ALGORITHM
    · by_cases h2 : e < now
      · simp [hk, ha, h2]
      · simp [hk, ha, h2]
    · simp [ha]
  · simp [hk]

/-- C10, confirmed: for requests gated by `require_admin` or
`require_employee`, two tokens that agree on subject, expiry, key and
algorithm but differ arbitrarily in their "roles" claim yield identical
authorization outcomes — the decision reads only the role grants stored
in the database at request time, so grants and revocations after token
issuance take effect immediately. -/
theorem C10_authorization_ignores_token_roles (sub : Option String)
    (r1 r2 : List String) (e : Nat) (k a : String) (db : DB) (now : Nat) :
    require_admin ⟨⟨sub, r1, e⟩, k, a⟩ db now
        = require_admin ⟨⟨sub, r2, e⟩, k, a⟩ db now ∧
      require_employee ⟨⟨sub, r1, e⟩, k, a⟩ db now
        = require_employee ⟨⟨sub, r2, e⟩, k, a⟩ db now := by
  constructor
  · simp only [require_admin, deps_user_roles_claim_agnostic sub r1 r2 e k a db now]
  · simp only [require_employee, deps_user_roles_claim_agnostic sub r1 r2 e k a db now]

end NetflixHub
